import Mathlib

/-!
Shallow embedding of the CrossGuard policy-pack predicates of
`experiments/032-policy-as-code-hy/policies/__main__.py` and
`experiments/032-policy-as-code-hy/compliance-policies/__main__.py`.

Resource properties are JSON-like Python values; we model them with the
tagged union `Value` below.  Python dictionaries become association lists
that keep insertion order (keys are unique in every dictionary the code
builds).  A predicate that can raise a Python exception is embedded as a
function into `Except PyErr (List Violation)`; `report_violation` calls
become elements of the returned list, in call order.  JSON numbers are
modelled as rationals (Python ints and floats compare numerically, which
is all these predicates do with them); the non-finite floats NaN,
Infinity and -Infinity, which Python `json.loads` accepts by default, get
a tag of their own with the IEEE comparison behaviour.
-/

namespace PolicyPack

/-- The non-finite IEEE floats Python can hand these predicates (produced
by `json.loads` from the constants `NaN`, `Infinity` and `-Infinity`). -/
inductive Nonfinite where
  | nan : Nonfinite
  | posInf : Nonfinite
  | negInf : Nonfinite
deriving DecidableEq

/-- A JSON-like Python value: the property values a resource descriptor can
carry.  Mirrors the loosely-typed dictionaries the source predicates read. -/
inductive Value where
  | null : Value
  | bool : Bool → Value
  | num : Rat → Value
  | str : String → Value
  | list : List Value → Value
  | map : List (String × Value) → Value
  | nonfinite : Nonfinite → Value

/-- Python exceptions the embedded predicates can raise. -/
inductive PyErr where
  | typeError : String → PyErr
  | attributeError : String → PyErr
deriving DecidableEq

/-- Embeds `pulumi_policy.EnforcementLevel` (only the two members the pack uses). -/
inductive EnforcementLevel where
  | ADVISORY : EnforcementLevel
  | MANDATORY : EnforcementLevel
deriving DecidableEq

/-- One reported violation: the message handed to `report_violation`
together with its enforcement level. -/
structure Violation where
  message : String
  level : EnforcementLevel

/-- Python `dict.get(key, default)` on an association list: first binding wins
(Python dictionaries hold each key at most once). -/
def getD (kvs : List (String × Value)) (k : String) (d : Value) : Value :=
  match kvs.find? (fun p => p.fst == k) with
  | some p => p.snd
  | none => d

/-- Python truthiness of a `Value` (`if v:`).  All three non-finite
floats are truthy in Python, NaN included. -/
def Value.truthy : Value → Bool
  | .null => false
  | .bool b => b
  | .num q => q != 0
  | .str s => !s.isEmpty
  | .list xs => !xs.isEmpty
  | .map kvs => !kvs.isEmpty
  | .nonfinite _ => true

/-- Python `isinstance(v, str)`. -/
def Value.isStr : Value → Bool
  | .str _ => true
  | _ => false

/-- Python `v == s` for a string literal `s`: only a `str` can compare
equal to a `str`; other types compare unequal without raising. -/
def Value.eqStr (v : Value) (s : String) : Bool :=
  match v with
  | .str t => t == s
  | _ => false

/-- Python `str(v)` as used in the f-string messages.  The predicates only
ever format numbers and strings (every other type raises before a message
is built), so composite values get a fixed placeholder rendering. -/
def Value.pyStr : Value → String
  | .null => "None"
  | .bool b => if b then "True" else "False"
  | .num q => if q.den == 1 then toString q.num else toString q
  | .str s => s
  | .list _ => "[...]"
  | .map _ => "\x7b...\x7d"
  | .nonfinite .nan => "nan"
  | .nonfinite .posInf => "inf"
  | .nonfinite .negInf => "-inf"

/-- Python `v > n` for an int literal `n`: numbers (and bools, which are
ints in Python) compare, non-finite floats compare the IEEE way (only
`inf > n` holds; NaN comparisons are false); every other type raises
`TypeError`. -/
def Value.pyGtInt (v : Value) (n : Int) : Except PyErr Bool :=
  match v with
  | .num q => .ok (decide ((n : Rat) < q))
  | .bool b => .ok (decide ((n : Rat) < if b then 1 else 0))
  | .nonfinite f => .ok (match f with | .posInf => true | _ => false)
  | _ => .error (.typeError "unsupported operand types for comparison")

/-- Python `n > v` for an int `n` on the left. -/
def pyIntGt (n : Int) (v : Value) : Except PyErr Bool :=
  match v with
  | .num q => .ok (decide (q < (n : Rat)))
  | .bool b => .ok (decide ((if b then (1 : Rat) else 0) < (n : Rat)))
  | .nonfinite f => .ok (match f with | .negInf => true | _ => false)
  | _ => .error (.typeError "unsupported operand types for comparison")

/-- Python `v != n` for an int literal `n`: never raises; a non-numeric
value is simply unequal. -/
def Value.neInt (v : Value) (n : Int) : Bool :=
  match v with
  | .num q => decide (q ≠ (n : Rat))
  | .bool b => decide ((if b then (1 : Rat) else 0) ≠ (n : Rat))
  | _ => true

/-- Python `s.upper()` on a string (ASCII, as all property data here is). -/
def strUpper (s : String) : String := String.mk (s.data.map Char.toUpper)

/-- Python `s.lower()` on a string (ASCII, as all property data here is). -/
def strLower (s : String) : String := String.mk (s.data.map Char.toLower)

/-- Python `v.upper()`: only strings have `upper`; anything else raises
`AttributeError`. -/
def Value.pyUpper : Value → Except PyErr String
  | .str s => .ok (strUpper s)
  | _ => .error (.attributeError "object has no attribute upper")

/-- Python `v.get(key, default)` on a value that may not be a dictionary:
raises `AttributeError` when `v` is not a dict. -/
def Value.dictGet (v : Value) (k : String) (d : Value) : Except PyErr Value :=
  match v with
  | .map kvs => .ok (getD kvs k d)
  | _ => .error (.attributeError "object has no attribute get")

/-- The argument object a resource validation receives: the declared type
token and the `props` dictionary (`args.resource_type` and
`args.get("props", Ø)` in the source). -/
structure ResourceArgs where
  resource_type : String
  props : List (String × Value)

/-- One resource as seen by a stack validation (`r.resource_type`). -/
structure StackResource where
  resource_type : String
  props : List (String × Value)

/-- The argument object a stack validation receives (`args.resources`). -/
structure StackArgs where
  resources : List StackResource

/-- The policy configuration dictionary, as handed to every predicate. -/
def Config := List (String × Value)

/-- Embeds `get_enforcement_level` of `policies/__main__.py`: MANDATORY unless the
configuration maps `enforcement-level` to a value equal to the string
`advisory` (any non-`mandatory` value yields ADVISORY). -/
def get_enforcement_level (config : Config) : EnforcementLevel :=
  if (getD config "enforcement-level" (.str "mandatory")).eqStr "mandatory" then
    .MANDATORY
  else
    .ADVISORY

/-- Python `v == n` for an int literal `n`: never raises. -/
def Value.eqInt (v : Value) (n : Int) : Bool :=
  match v with
  | .num q => decide (q = (n : Rat))
  | .bool b => decide ((if b then (1 : Rat) else 0) = (n : Rat))
  | _ => false

/-- Python `for x in v`: lists iterate their items, strings their
characters, dictionaries their keys; other values raise `TypeError`. -/
def pyIterate : Value → Except PyErr (List Value)
  | .list xs => .ok xs
  | .str s => .ok (s.data.map (fun c => .str (String.mk [c])))
  | .map kvs => .ok (kvs.map (fun p => .str p.fst))
  | _ => .error (.typeError "object is not iterable")

/-- Python `v.items()` on a value that may not be a dictionary. -/
def pyDictItems : Value → Except PyErr (List (String × Value))
  | .map kvs => .ok kvs
  | _ => .error (.attributeError "object has no attribute items")

/-- Embeds `s3_bucket_public_access_block` of `policies/__main__.py`. -/
def s3_bucket_public_access_block (args : ResourceArgs) (config : Config) :
    Except PyErr (List Violation) :=
  if args.resource_type == "aws:s3/bucketPublicAccessBlock:BucketPublicAccessBlock" then
    let props := args.props
    let violations :=
      (if !(getD props "blockPublicAcls" (.bool true)).truthy then
        ["blockPublicAcls should be true"] else []) ++
      (if !(getD props "blockPublicPolicy" (.bool true)).truthy then
        ["blockPublicPolicy should be true"] else []) ++
      (if !(getD props "ignorePublicAcls" (.bool true)).truthy then
        ["ignorePublicAcls should be true"] else []) ++
      (if !(getD props "restrictPublicBuckets" (.bool true)).truthy then
        ["restrictPublicBuckets should be true"] else [])
    if !violations.isEmpty then
      .ok [⟨"S3 bucket public access block violations: " ++ String.intercalate ", " violations,
            get_enforcement_level config⟩]
    else .ok []
  else .ok []

/-- Embeds `s3_bucket_versioning_enabled` of `policies/__main__.py`. -/
def s3_bucket_versioning_enabled (args : ResourceArgs) (config : Config) :
    Except PyErr (List Violation) :=
  if args.resource_type == "aws:s3/bucketVersioningV2:BucketVersioningV2" then do
    let versioning_config := getD args.props "versioningConfiguration" (.map [])
    let status ← versioning_config.dictGet "status" .null
    if !status.eqStr "Enabled" then
      pure [⟨"S3 bucket should have versioning enabled for data protection",
             get_enforcement_level config⟩]
    else pure []
  else .ok []

/-- The per-rule loop body of `s3_bucket_encryption_required`. -/
def encryptionRuleViolations (config : Config) : List Value → Except PyErr (List Violation)
  | [] => .ok []
  | rule :: rest => do
    let apply_config ← rule.dictGet "applyServerSideEncryptionByDefault" (.map [])
    let alg ← apply_config.dictGet "sseAlgorithm" .null
    let here := if !alg.truthy then
        [(⟨"S3 bucket encryption rule must specify SSE algorithm",
           get_enforcement_level config⟩ : Violation)]
      else []
    let there ← encryptionRuleViolations config rest
    pure (here ++ there)

/-- Embeds `s3_bucket_encryption_required` of `policies/__main__.py`. -/
def s3_bucket_encryption_required (args : ResourceArgs) (config : Config) :
    Except PyErr (List Violation) :=
  if !(getD config "require-encryption" (.bool true)).truthy then .ok []
  else if args.resource_type ==
      "aws:s3/bucketServerSideEncryptionConfigurationV2:BucketServerSideEncryptionConfigurationV2" then
    let rules := getD args.props "rules" (.list [])
    if !rules.truthy then
      .ok [⟨"S3 bucket must have server-side encryption configured",
            get_enforcement_level config⟩]
    else do
      let items ← pyIterate rules
      encryptionRuleViolations config items
  else .ok []

/-- Embeds `iam_role_no_inline_policies` of `policies/__main__.py`. -/
def iam_role_no_inline_policies (args : ResourceArgs) (config : Config) :
    Except PyErr (List Violation) :=
  if args.resource_type == "aws:iam/role:Role" then
    if (getD args.props "inlinePolicies" (.list [])).truthy then
      .ok [⟨"IAM role should use managed policies instead of inline policies for better governance",
            get_enforcement_level config⟩]
    else .ok []
  else .ok []

/-- Embeds `lambda_reasonable_timeout` of `policies/__main__.py`: compares the
`timeout` property (default 3) against 300 with the Python `>`. -/
def lambda_reasonable_timeout (args : ResourceArgs) (config : Config) :
    Except PyErr (List Violation) :=
  if args.resource_type == "aws:lambda/function:Function" then do
    let timeout := getD args.props "timeout" (.num 3)
    let excessive ← timeout.pyGtInt 300
    if excessive then
      pure [⟨"Lambda function timeout (" ++ timeout.pyStr ++
             "s) is excessive. Consider if this is necessary.",
             get_enforcement_level config⟩]
    else pure []
  else .ok []

/-- Embeds `alb_listener_https_only` of `policies/__main__.py`: first consults the
`require-https` configuration switch, then calls `.upper()` on the
`protocol` property (which raises on a non-string). -/
def alb_listener_https_only (args : ResourceArgs) (config : Config) :
    Except PyErr (List Violation) :=
  if !(getD config "require-https" (.bool true)).truthy then .ok []
  else if args.resource_type == "aws:lb/listener:Listener" then do
    let props := args.props
    let protocol := getD props "protocol" (.str "")
    let port := getD props "port" (.num 80)
    let up ← protocol.pyUpper
    if up == "HTTP" && port.neInt 80 then
      pure [⟨"Load balancer listener should use HTTPS instead of HTTP on port " ++ port.pyStr,
             get_enforcement_level config⟩]
    else if up == "HTTP" && !port.neInt 80 then
      pure [⟨"Load balancer listener uses HTTP on port 80. Consider implementing HTTPS redirect.",
             EnforcementLevel.ADVISORY⟩]
    else pure []
  else .ok []

/-- The per-rule loop body of `security_group_no_unrestricted_ingress`. -/
def ingressRuleViolations (config : Config) : List Value → Except PyErr (List Violation)
  | [] => .ok []
  | rule :: rest => do
    let cidr_ipv4 ← rule.dictGet "cidrIpv4" (.str "")
    let from_port ← rule.dictGet "fromPort" (.num 0)
    let to_port ← rule.dictGet "toPort" (.num 0)
    let here :=
      if cidr_ipv4.eqStr "0.0.0.0/0" then
        if from_port.eqInt 0 && to_port.eqInt 65535 then
          [(⟨"Security group allows unrestricted access on all ports from anywhere",
             EnforcementLevel.MANDATORY⟩ : Violation)]
        else if from_port.neInt 80 && from_port.neInt 443 then
          [⟨"Security group allows unrestricted access on port " ++ from_port.pyStr ++
            " from anywhere", get_enforcement_level config⟩]
        else []
      else []
    let there ← ingressRuleViolations config rest
    pure (here ++ there)

/-- Embeds `security_group_no_unrestricted_ingress` of `policies/__main__.py`. -/
def security_group_no_unrestricted_ingress (args : ResourceArgs) (config : Config) :
    Except PyErr (List Violation) :=
  if args.resource_type == "aws:ec2/securityGroup:SecurityGroup" then do
    let rules ← pyIterate (getD args.props "ingressRules" (.list []))
    ingressRuleViolations config rules
  else .ok []

/-- Embeds `rds_instance_encrypted_storage` of `policies/__main__.py`. -/
def rds_instance_encrypted_storage (args : ResourceArgs) (config : Config) :
    Except PyErr (List Violation) :=
  if !(getD config "require-encryption" (.bool true)).truthy then .ok []
  else if args.resource_type == "aws:rds/instance:Instance" then
    if !(getD args.props "storageEncrypted" (.bool false)).truthy then
      .ok [⟨"RDS instance should have encrypted storage enabled", get_enforcement_level config⟩]
    else .ok []
  else .ok []

/-- Embeds `rds_instance_not_publicly_accessible` of `policies/__main__.py`. -/
def rds_instance_not_publicly_accessible (args : ResourceArgs) (config : Config) :
    Except PyErr (List Violation) :=
  if args.resource_type == "aws:rds/instance:Instance" then
    if (getD args.props "publiclyAccessible" (.bool false)).truthy then
      .ok [⟨"RDS instance should not be publicly accessible", EnforcementLevel.MANDATORY⟩]
    else .ok []
  else .ok []

/-- Embeds `rds_instance_backup_retention` of `policies/__main__.py`. -/
def rds_instance_backup_retention (args : ResourceArgs) (config : Config) :
    Except PyErr (List Violation) :=
  if args.resource_type == "aws:rds/instance:Instance" then
    if (getD args.props "backupRetentionPeriod" (.num 0)).eqInt 0 then
      .ok [⟨"RDS instance should have backup retention period configured (non-zero)",
            get_enforcement_level config⟩]
    else .ok []
  else .ok []

/-! ### A model of `json.loads`

`iam_policy_no_wildcard_actions` parses its policy document with the
standard-library `json.loads`.  We model it with an executable
recursive-descent parser over the JSON grammar (strict mode, as Python
uses it): values are objects, arrays, strings, numbers, `true`, `false`,
`null`, plus the non-standard constants `NaN`, `Infinity` and
`-Infinity` that Python accepts by default; finite numbers are read into
`Rat`.  Recursion is fuelled by the input length. -/

/-- JSON insignificant whitespace. -/
def isJsonWs (c : Char) : Bool :=
  c == ' ' || c == '\t' || c == '\n' || c == '\r'

/-- Drop leading JSON whitespace. -/
def skipWs (cs : List Char) : List Char := cs.dropWhile isJsonWs

/-- Value of one hexadecimal digit. -/
def hexDigitVal (c : Char) : Option Nat :=
  if c.isDigit then some (c.toNat - 48)
  else if 'a' ≤ c && c ≤ 'f' then some (c.toNat - 87)
  else if 'A' ≤ c && c ≤ 'F' then some (c.toNat - 55)
  else none

/-- The opening brace character of a JSON object. -/
def lbrace : Char := Char.ofNat 123

/-- The closing brace character of a JSON object. -/
def rbrace : Char := Char.ofNat 125

/-- Parse the body of a JSON string after its opening quote, returning the
decoded characters and the rest of the input.  Strict mode: raw control
characters are rejected. -/
def parseJStringBody : Nat → List Char → Option (List Char × List Char)
  | 0, _ => none
  | _ + 1, [] => none
  | fuel + 1, c :: rest =>
    if c == '"' then some ([], rest)
    else if c == '\\' then
      match rest with
      | 'u' :: h1 :: h2 :: h3 :: h4 :: rest2 =>
        match hexDigitVal h1, hexDigitVal h2, hexDigitVal h3, hexDigitVal h4 with
        | some a, some b, some c2, some d =>
          let n := ((a * 16 + b) * 16 + c2) * 16 + d
          (parseJStringBody fuel rest2).map (fun p => (Char.ofNat n :: p.1, p.2))
        | _, _, _, _ => none
      | e :: rest2 =>
        let dec : Option Char :=
          if e == '"' then some '"'
          else if e == '\\' then some '\\'
          else if e == '/' then some '/'
          else if e == 'n' then some '\n'
          else if e == 't' then some '\t'
          else if e == 'r' then some '\r'
          else if e == 'b' then some (Char.ofNat 8)
          else if e == 'f' then some (Char.ofNat 12)
          else none
        match dec with
        | some d => (parseJStringBody fuel rest2).map (fun p => (d :: p.1, p.2))
        | none => none
      | [] => none
    else if c.toNat < 32 then none
    else (parseJStringBody fuel rest).map (fun p => (c :: p.1, p.2))

/-- Digits to the natural number they denote. -/
def digitsToNat (ds : List Char) : Nat :=
  ds.foldl (fun a c => a * 10 + (c.toNat - 48)) 0

/-- Parse a JSON number (optional sign, integer part without leading
zeros, optional fraction, optional exponent) into a rational. -/
def parseJNumber (cs : List Char) : Option (Rat × List Char) :=
  let p := match cs with
    | '-' :: rest => (true, rest)
    | _ => (false, cs)
  let neg := p.1
  let cs1 := p.2
  let intDigits := cs1.takeWhile Char.isDigit
  let cs2 := cs1.dropWhile Char.isDigit
  if intDigits.isEmpty then none
  else if intDigits.length > 1 && intDigits.headD '0' == '0' then none
  else
    let step2 : Option (Rat × List Char) :=
      match cs2 with
      | '.' :: rest =>
        let fd := rest.takeWhile Char.isDigit
        if fd.isEmpty then none
        else some ((digitsToNat intDigits : Rat) +
          (digitsToNat fd : Rat) / ((10 : Rat) ^ fd.length), rest.dropWhile Char.isDigit)
      | _ => some ((digitsToNat intDigits : Rat), cs2)
    match step2 with
    | none => none
    | some (base, cs3) =>
      let step3 : Option (Rat × List Char) :=
        match cs3 with
        | 'e' :: rest => parseJExponent base rest
        | 'E' :: rest => parseJExponent base rest
        | _ => some (base, cs3)
      match step3 with
      | none => none
      | some (q, cs4) => some (if neg then -q else q, cs4)
where
  /-- Parse the exponent suffix after `e`/`E`. -/
  parseJExponent (base : Rat) (rest : List Char) : Option (Rat × List Char) :=
    let pe := match rest with
      | '-' :: r => (true, r)
      | '+' :: r => (false, r)
      | _ => (false, rest)
    let ed := pe.2.takeWhile Char.isDigit
    if ed.isEmpty then none
    else
      let e := digitsToNat ed
      some (if pe.1 then base / (10 : Rat) ^ e else base * (10 : Rat) ^ e,
        pe.2.dropWhile Char.isDigit)

mutual

/-- Parse one JSON value; input whitespace is skipped first. -/
def parseJValue : Nat → List Char → Option (Value × List Char)
  | 0, _ => none
  | fuel + 1, cs =>
    match skipWs cs with
    | [] => none
    | c :: rest =>
      if c == '"' then
        (parseJStringBody (fuel + 1) rest).map (fun p => (.str (String.mk p.1), p.2))
      else if c == lbrace then
        match skipWs rest with
        | [] => none
        | c2 :: rest2 =>
          if c2 == rbrace then some (.map [], rest2)
          else (parseJObjMembers fuel (c2 :: rest2)).map (fun p => (.map p.1, p.2))
      else if c == '[' then
        match skipWs rest with
        | [] => none
        | c2 :: rest2 =>
          if c2 == ']' then some (.list [], rest2)
          else (parseJArrItems fuel (c2 :: rest2)).map (fun p => (.list p.1, p.2))
      else if c == 't' then
        match rest with
        | 'r' :: 'u' :: 'e' :: rest2 => some (.bool true, rest2)
        | _ => none
      else if c == 'f' then
        match rest with
        | 'a' :: 'l' :: 's' :: 'e' :: rest2 => some (.bool false, rest2)
        | _ => none
      else if c == 'n' then
        match rest with
        | 'u' :: 'l' :: 'l' :: rest2 => some (.null, rest2)
        | _ => none
      else if c == 'N' then
        match rest with
        | 'a' :: 'N' :: rest2 => some (.nonfinite .nan, rest2)
        | _ => none
      else if c == 'I' then
        match rest with
        | 'n' :: 'f' :: 'i' :: 'n' :: 'i' :: 't' :: 'y' :: rest2 =>
          some (.nonfinite .posInf, rest2)
        | _ => none
      else if c == '-' then
        match rest with
        | 'I' :: 'n' :: 'f' :: 'i' :: 'n' :: 'i' :: 't' :: 'y' :: rest2 =>
          some (.nonfinite .negInf, rest2)
        | _ => (parseJNumber (c :: rest)).map (fun p => (.num p.1, p.2))
      else
        (parseJNumber (c :: rest)).map (fun p => (.num p.1, p.2))

/-- Parse a non-empty `,`-separated member list of a JSON object, up to
and including its closing brace. -/
def parseJObjMembers : Nat → List Char → Option (List (String × Value) × List Char)
  | 0, _ => none
  | fuel + 1, cs =>
    match skipWs cs with
    | [] => none
    | c :: rest =>
      if c == '"' then
        match parseJStringBody (fuel + 1) rest with
        | none => none
        | some (key, rest2) =>
          match skipWs rest2 with
          | ':' :: rest3 =>
            match parseJValue fuel rest3 with
            | none => none
            | some (v, rest4) =>
              match skipWs rest4 with
              | [] => none
              | c2 :: rest5 =>
                if c2 == ',' then
                  (parseJObjMembers fuel rest5).map
                    (fun p => ((String.mk key, v) :: p.1, p.2))
                else if c2 == rbrace then some ([(String.mk key, v)], rest5)
                else none
          | _ => none
      else none

/-- Parse a non-empty `,`-separated item list of a JSON array, up to and
including its closing bracket. -/
def parseJArrItems : Nat → List Char → Option (List Value × List Char)
  | 0, _ => none
  | fuel + 1, cs =>
    match parseJValue fuel cs with
    | none => none
    | some (v, rest) =>
      match skipWs rest with
      | [] => none
      | c :: rest2 =>
        if c == ',' then
          (parseJArrItems fuel rest2).map (fun p => (v :: p.1, p.2))
        else if c == ']' then some ([v], rest2)
        else none

end

/-- The model of Python `json.loads` on a string: parse one value and
require only whitespace to remain; `none` models `json.JSONDecodeError`.
As Python does by default, the non-standard constants `NaN`, `Infinity`
and `-Infinity` are accepted and yield non-finite floats. -/
def json_loads (s : String) : Option Value :=
  match parseJValue (s.length + 1) s.data with
  | some (v, rest) => if (skipWs rest).isEmpty then some v else none
  | none => none

/-- Whether `pat` occurs as a contiguous substring of `s` (Python
`pat in s`, `re.search` of a literal). -/
def containsSub (s pat : String) : Bool :=
  (List.range (s.data.length + 1)).any
    (fun i => listStartsWith pat.data (s.data.drop i))
where
  /-- Whether the first list is an initial segment of the second. -/
  listStartsWith : List Char → List Char → Bool
    | [], _ => true
    | _ :: _, [] => false
    | p :: ps, c :: cs => p == c && listStartsWith ps cs

/-- The action check of `iam_policy_no_wildcard_actions`:
`action == "*" or (isinstance(action, str) and "*:*" in action)`, and the
MANDATORY violation it reports. -/
def actionViolations (action : Value) : List Violation :=
  match action with
  | .str s =>
    if s == "*" || containsSub s "*:*" then
      [⟨"IAM policy contains overly permissive action: " ++ s, .MANDATORY⟩]
    else []
  | _ => []

/-- The per-statement body of `iam_policy_no_wildcard_actions`: read
`Action` (listified when it is not a list) and report each wildcard. -/
def statementActionViolations (stmt : Value) : Except PyErr (List Violation) := do
  let actions ← stmt.dictGet "Action" (.list [])
  let actionsList := match actions with
    | .list xs => xs
    | v => [v]
  pure (actionsList.map actionViolations).flatten

/-- The statement loop of `iam_policy_no_wildcard_actions`. -/
def policyStatementsViolations : List Value → Except PyErr (List Violation)
  | [] => .ok []
  | stmt :: rest => do
    let here ← statementActionViolations stmt
    let there ← policyStatementsViolations rest
    pure (here ++ there)

/-- Embeds `iam_policy_no_wildcard_actions` of `policies/__main__.py`.  Only
`json.JSONDecodeError` is caught (yielding the invalid-JSON violation); an
`AttributeError` from `.get` on a non-dictionary parse result propagates. -/
def iam_policy_no_wildcard_actions (args : ResourceArgs) (config : Config) :
    Except PyErr (List Violation) :=
  if args.resource_type == "aws:iam/policy:Policy" then
    let policy_doc := getD args.props "policy" .null
    if policy_doc.truthy && policy_doc.isStr then
      match policy_doc with
      | .str doc =>
        match json_loads doc with
        | some policy => do
          let statements ← policy.dictGet "Statement" (.list [])
          let statementsList := match statements with
            | .list xs => xs
            | v => [v]
          policyStatementsViolations statementsList
        | none => .ok [⟨"IAM policy document is not valid JSON", .MANDATORY⟩]
      | _ => .ok []
    else .ok []
  else .ok []

/-! ### `lambda_no_hardcoded_secrets`

The six `secret_patterns` regexes of the source are translated into
executable substring predicates with the same extension:
* `(?i)(password|pwd|pass)` — the lowercased text contains one of the
  three alternatives (case-insensitive search);
* `(?i)(secret|key|token)` — likewise;
* `(?i)(api[_-]?key)` — the lowercased text contains `api_key`, `api-key`
  or `apikey`;
* `sk-[a-zA-Z0-9]{20,}` — case-sensitive: the text contains `sk-`
  immediately followed by at least 20 ASCII alphanumerics;
* `(?i)(access[_-]?key)` and `(?i)(private[_-]?key)` — as the third. -/

/-- The `sk-` API-key pattern: `sk-` followed by 20 or more ASCII
alphanumeric characters, anywhere in the text. -/
def skKeyHit (s : String) : Bool :=
  (List.range (s.data.length + 1)).any (fun i =>
    match s.data.drop i with
    | 's' :: 'k' :: '-' :: rest =>
      decide (rest.length ≥ 20) && (rest.take 20).all Char.isAlphanum
    | _ => false)

/-- Embeds `re.search(secret_patterns[i], text)` as a Boolean on the text. -/
def secretPatternHit : Nat → String → Bool
  | 0, s => containsSub (strLower s) "password" || containsSub (strLower s) "pwd" ||
      containsSub (strLower s) "pass"
  | 1, s => containsSub (strLower s) "secret" || containsSub (strLower s) "key" ||
      containsSub (strLower s) "token"
  | 2, s => containsSub (strLower s) "api_key" || containsSub (strLower s) "api-key" ||
      containsSub (strLower s) "apikey"
  | 3, s => skKeyHit s
  | 4, s => containsSub (strLower s) "access_key" || containsSub (strLower s) "access-key" ||
      containsSub (strLower s) "accesskey"
  | 5, s => containsSub (strLower s) "private_key" || containsSub (strLower s) "private-key" ||
      containsSub (strLower s) "privatekey"
  | _ + 6, _ => false

/-- The per-variable body of `lambda_no_hardcoded_secrets`: only string
values are examined; the name loop breaks after its first pattern match,
the value loop checks the first three patterns without a break. -/
def secretVarViolations (var_name : String) (var_value : Value) : List Violation :=
  match var_value with
  | .str v =>
    (if (List.range 6).any (fun i => secretPatternHit i var_name) then
      [(⟨"Lambda function environment variable \x27" ++ var_name ++
         "\x27 appears to contain a secret. Use AWS Secrets Manager or Parameter Store instead.",
         EnforcementLevel.MANDATORY⟩ : Violation)]
    else []) ++
    (if decide (v.length > 10) && v.data.any Char.isDigit && v.data.any Char.isAlpha then
      ((List.range 3).filter (fun i => secretPatternHit i (strLower var_name))).map
        (fun _ => ⟨"Lambda function environment variable \x27" ++ var_name ++
          "\x27 appears to contain a hardcoded secret", EnforcementLevel.MANDATORY⟩)
    else [])
  | _ => []

/-- Embeds `lambda_no_hardcoded_secrets` of `policies/__main__.py`. -/
def lambda_no_hardcoded_secrets (args : ResourceArgs) (config : Config) :
    Except PyErr (List Violation) :=
  if args.resource_type == "aws:lambda/function:Function" then do
    let environment := getD args.props "environment" (.map [])
    let vars ← environment.dictGet "variables" (.map [])
    let items ← pyDictItems vars
    pure (items.map (fun p => secretVarViolations p.fst p.snd)).flatten
  else .ok []

/-- Embeds `iso27001_s3_encryption_at_rest` of `compliance-policies/__main__.py`:
reports unconditionally on every `aws:s3/bucketV2:BucketV2` resource. -/
def iso27001_s3_encryption_at_rest (args : ResourceArgs) (config : Config) :
    Except PyErr (List Violation) :=
  if args.resource_type == "aws:s3/bucketV2:BucketV2" then
    .ok [⟨"ISO 27001 Compliance: S3 bucket must have server-side encryption configured",
          EnforcementLevel.MANDATORY⟩]
  else .ok []

/-- Embeds `hitrust_s3_logging_enabled` of `compliance-policies/__main__.py`: the
guarded branch body is `pass`, so nothing is ever reported. -/
def hitrust_s3_logging_enabled (args : ResourceArgs) (config : Config) :
    Except PyErr (List Violation) :=
  if args.resource_type == "aws:s3/bucketLoggingV2:BucketLoggingV2" then
    .ok []
  else .ok []

/-- Embeds `s3_bucket_count_limit` of `policies/__main__.py`: the stack-scoped
bucket-count rule. -/
def s3_bucket_count_limit (args : StackArgs) (config : Config) :
    Except PyErr (List Violation) := do
  let max_buckets := getD config "max-s3-buckets" (.num 5)
  let s3_buckets := args.resources.filter
    (fun r => r.resource_type == "aws:s3/bucketV2:BucketV2")
  let over ← pyIntGt s3_buckets.length max_buckets
  if over then
    pure [⟨"Stack contains " ++ toString s3_buckets.length ++
           " S3 buckets, which exceeds the limit of " ++ max_buckets.pyStr,
           get_enforcement_level config⟩]
  else pure []

/-- One RESOURCE-scoped rule of a pack: its registered name and its
validation predicate. -/
structure ResourceRule where
  name : String
  validate : ResourceArgs → Config → Except PyErr (List Violation)

/-- The twelve resource-scoped rules of the `pulumi-lab-policies` pack, in
their declaration order in `policies/__main__.py`. -/
def pulumi_lab_resource_rules : List ResourceRule :=
  [⟨"s3-bucket-public-access-block", s3_bucket_public_access_block⟩,
   ⟨"s3-bucket-versioning-enabled", s3_bucket_versioning_enabled⟩,
   ⟨"s3-bucket-encryption-required", s3_bucket_encryption_required⟩,
   ⟨"iam-policy-no-wildcard-actions", iam_policy_no_wildcard_actions⟩,
   ⟨"iam-role-no-inline-policies", iam_role_no_inline_policies⟩,
   ⟨"lambda-no-hardcoded-secrets", lambda_no_hardcoded_secrets⟩,
   ⟨"lambda-reasonable-timeout", lambda_reasonable_timeout⟩,
   ⟨"alb-listener-https-only", alb_listener_https_only⟩,
   ⟨"security-group-no-unrestricted-ingress", security_group_no_unrestricted_ingress⟩,
   ⟨"rds-instance-encrypted-storage", rds_instance_encrypted_storage⟩,
   ⟨"rds-instance-not-publicly-accessible", rds_instance_not_publicly_accessible⟩,
   ⟨"rds-instance-backup-retention", rds_instance_backup_retention⟩]

/-- Modelled from the spec: the evaluator operation `evaluateResource` of
§4.1 belongs to the external policy engine and is not under src/ (the pack
only registers its predicates with it).  Per the spec it invokes every
RESOURCE-scoped rule in declaration order, converts a predicate that fails
internally into a single MANDATORY violation naming the rule, and returns
the concatenated violation sequence. -/
def evaluateResource (rules : List ResourceRule) (args : ResourceArgs) (config : Config) :
    List Violation :=
  (rules.map (fun r =>
    match r.validate args config with
    | .ok vs => vs
    | .error _ =>
      [⟨"Policy rule " ++ r.name ++ " failed internally", .MANDATORY⟩])).flatten

end PolicyPack

namespace PolicyPack

/-- Reduction of `Except` bind on a success value. -/
theorem except_bind_ok {ε α β : Type} (a : α) (f : α → Except ε β) :
    (Except.ok a >>= f) = f a := rfl

/-- Reduction of `Except` bind on an error value. -/
theorem except_bind_err {ε α β : Type} (e : ε) (f : α → Except ε β) :
    ((Except.error e : Except ε α) >>= f) = Except.error e := rfl

/-- C9: the HITRUST S3 access-logging rule is a no-op — for every resource
descriptor and configuration it reports zero violations and raises no
exception, including on resources of its own target logging type. -/
theorem hitrust_s3_logging_enabled_noop (args : ResourceArgs) (config : Config) :
    hitrust_s3_logging_enabled args config = .ok [] := by
  unfold hitrust_s3_logging_enabled
  split <;> rfl

/-- C10: the ISO 27001 encryption-at-rest rule flags every
`aws:s3/bucketV2:BucketV2` resource unconditionally — for all property
contents and configurations it reports exactly one MANDATORY violation,
with no check that encryption is absent. -/
theorem iso27001_s3_encryption_flags_every_bucket
    (props : List (String × Value)) (config : Config) :
    iso27001_s3_encryption_at_rest ⟨"aws:s3/bucketV2:BucketV2", props⟩ config =
      .ok [⟨"ISO 27001 Compliance: S3 bucket must have server-side encryption configured",
            EnforcementLevel.MANDATORY⟩] := rfl

/-- C2: `evaluateResource` is a deterministic pure function of the pack,
the resource descriptor and the configuration — two calls on identical
inputs yield identical violation sequences (same order, same messages,
same severities). -/
theorem evaluateResource_deterministic
    (P₁ P₂ : List ResourceRule) (R₁ R₂ : ResourceArgs) (c₁ c₂ : Config)
    (hP : P₁ = P₂) (hR : R₁ = R₂) (hc : c₁ = c₂) :
    evaluateResource P₁ R₁ c₁ = evaluateResource P₂ R₂ c₂ := by
  subst hP; subst hR; subst hc; rfl

/-- Witness for C2: two evaluations of the full `pulumi-lab-policies`
resource-rule list on one concrete lambda resource coincide. -/
theorem evaluateResource_deterministic_witness :
    evaluateResource pulumi_lab_resource_rules
      ⟨"aws:lambda/function:Function",
       [("timeout", .num 900),
        ("environment", .map [("variables", .map [("DB_PASSWORD", .str "hunter2abc123")])])]⟩
      [("enforcement-level", .str "advisory")] =
    evaluateResource pulumi_lab_resource_rules
      ⟨"aws:lambda/function:Function",
       [("timeout", .num 900),
        ("environment", .map [("variables", .map [("DB_PASSWORD", .str "hunter2abc123")])])]⟩
      [("enforcement-level", .str "advisory")] :=
  evaluateResource_deterministic _ _ _ _ _ _ rfl rfl rfl

/-- C3: every resource-scoped rule of the pack guards on its target
resource type: on a descriptor of any other type it reports zero
violations and raises no exception, for all property contents (malformed
or missing included) and all configurations. -/
theorem type_guard_zero_violations
    (rt : String) (props : List (String × Value)) (config : Config) :
    (rt ≠ "aws:s3/bucketPublicAccessBlock:BucketPublicAccessBlock" →
      s3_bucket_public_access_block ⟨rt, props⟩ config = .ok []) ∧
    (rt ≠ "aws:s3/bucketVersioningV2:BucketVersioningV2" →
      s3_bucket_versioning_enabled ⟨rt, props⟩ config = .ok []) ∧
    (rt ≠ "aws:s3/bucketServerSideEncryptionConfigurationV2:BucketServerSideEncryptionConfigurationV2" →
      s3_bucket_encryption_required ⟨rt, props⟩ config = .ok []) ∧
    (rt ≠ "aws:iam/policy:Policy" →
      iam_policy_no_wildcard_actions ⟨rt, props⟩ config = .ok []) ∧
    (rt ≠ "aws:iam/role:Role" →
      iam_role_no_inline_policies ⟨rt, props⟩ config = .ok []) ∧
    (rt ≠ "aws:lambda/function:Function" →
      lambda_no_hardcoded_secrets ⟨rt, props⟩ config = .ok []) ∧
    (rt ≠ "aws:lambda/function:Function" →
      lambda_reasonable_timeout ⟨rt, props⟩ config = .ok []) ∧
    (rt ≠ "aws:lb/listener:Listener" →
      alb_listener_https_only ⟨rt, props⟩ config = .ok []) ∧
    (rt ≠ "aws:ec2/securityGroup:SecurityGroup" →
      security_group_no_unrestricted_ingress ⟨rt, props⟩ config = .ok []) ∧
    (rt ≠ "aws:rds/instance:Instance" →
      rds_instance_encrypted_storage ⟨rt, props⟩ config = .ok []) ∧
    (rt ≠ "aws:rds/instance:Instance" →
      rds_instance_not_publicly_accessible ⟨rt, props⟩ config = .ok []) ∧
    (rt ≠ "aws:rds/instance:Instance" →
      rds_instance_backup_retention ⟨rt, props⟩ config = .ok []) := by
  refine ⟨?_, ?_, ?_, ?_, ?_, ?_, ?_, ?_, ?_, ?_, ?_, ?_⟩ <;> intro h <;>
    simp [s3_bucket_public_access_block, s3_bucket_versioning_enabled,
      s3_bucket_encryption_required, iam_policy_no_wildcard_actions,
      iam_role_no_inline_policies, lambda_no_hardcoded_secrets,
      lambda_reasonable_timeout, alb_listener_https_only,
      security_group_no_unrestricted_ingress, rds_instance_encrypted_storage,
      rds_instance_not_publicly_accessible, rds_instance_backup_retention, h]

/-- Witness for C3: a resource of an unrelated type whose properties are
malformed for every rule (string timeout, numeric protocol, numeric
policy document) draws zero violations from all twelve rules. -/
theorem type_guard_zero_violations_witness :
    (s3_bucket_public_access_block
      ⟨"example:other:Thing", [("timeout", .str "bad"), ("protocol", .num 5),
        ("policy", .num 1)]⟩ [] = .ok []) ∧
    (s3_bucket_versioning_enabled
      ⟨"example:other:Thing", [("timeout", .str "bad"), ("protocol", .num 5),
        ("policy", .num 1)]⟩ [] = .ok []) ∧
    (s3_bucket_encryption_required
      ⟨"example:other:Thing", [("timeout", .str "bad"), ("protocol", .num 5),
        ("policy", .num 1)]⟩ [] = .ok []) ∧
    (iam_policy_no_wildcard_actions
      ⟨"example:other:Thing", [("timeout", .str "bad"), ("protocol", .num 5),
        ("policy", .num 1)]⟩ [] = .ok []) ∧
    (iam_role_no_inline_policies
      ⟨"example:other:Thing", [("timeout", .str "bad"), ("protocol", .num 5),
        ("policy", .num 1)]⟩ [] = .ok []) ∧
    (lambda_no_hardcoded_secrets
      ⟨"example:other:Thing", [("timeout", .str "bad"), ("protocol", .num 5),
        ("policy", .num 1)]⟩ [] = .ok []) ∧
    (lambda_reasonable_timeout
      ⟨"example:other:Thing", [("timeout", .str "bad"), ("protocol", .num 5),
        ("policy", .num 1)]⟩ [] = .ok []) ∧
    (alb_listener_https_only
      ⟨"example:other:Thing", [("timeout", .str "bad"), ("protocol", .num 5),
        ("policy", .num 1)]⟩ [] = .ok []) ∧
    (security_group_no_unrestricted_ingress
      ⟨"example:other:Thing", [("timeout", .str "bad"), ("protocol", .num 5),
        ("policy", .num 1)]⟩ [] = .ok []) ∧
    (rds_instance_encrypted_storage
      ⟨"example:other:Thing", [("timeout", .str "bad"), ("protocol", .num 5),
        ("policy", .num 1)]⟩ [] = .ok []) ∧
    (rds_instance_not_publicly_accessible
      ⟨"example:other:Thing", [("timeout", .str "bad"), ("protocol", .num 5),
        ("policy", .num 1)]⟩ [] = .ok []) ∧
    (rds_instance_backup_retention
      ⟨"example:other:Thing", [("timeout", .str "bad"), ("protocol", .num 5),
        ("policy", .num 1)]⟩ [] = .ok []) := by
  have h := type_guard_zero_violations "example:other:Thing"
    [("timeout", .str "bad"), ("protocol", .num 5), ("policy", .num 1)] []
  exact ⟨h.1 (by decide), h.2.1 (by decide), h.2.2.1 (by decide),
    h.2.2.2.1 (by decide), h.2.2.2.2.1 (by decide), h.2.2.2.2.2.1 (by decide),
    h.2.2.2.2.2.2.1 (by decide), h.2.2.2.2.2.2.2.1 (by decide),
    h.2.2.2.2.2.2.2.2.1 (by decide), h.2.2.2.2.2.2.2.2.2.1 (by decide),
    h.2.2.2.2.2.2.2.2.2.2.1 (by decide), h.2.2.2.2.2.2.2.2.2.2.2 (by decide)⟩

/-- C7: on every resource of the public-access-block type — whatever
other properties it carries and in whatever order — all four block flags
true means zero violations, and exactly one flag false with the other
three true means exactly one violation whose message names that flag, for
every configuration.  The flag readings are stated through the same
defaulted lookups the source performs, so an omitted flag (defaulting to
true) is covered as well. -/
theorem public_access_block_boundary
    (props : List (String × Value)) (config : Config) :
    ((getD props "blockPublicAcls" (.bool true)).truthy = true →
     (getD props "blockPublicPolicy" (.bool true)).truthy = true →
     (getD props "ignorePublicAcls" (.bool true)).truthy = true →
     (getD props "restrictPublicBuckets" (.bool true)).truthy = true →
      s3_bucket_public_access_block
        ⟨"aws:s3/bucketPublicAccessBlock:BucketPublicAccessBlock", props⟩ config =
        .ok []) ∧
    ((getD props "blockPublicAcls" (.bool true)).truthy = false →
     (getD props "blockPublicPolicy" (.bool true)).truthy = true →
     (getD props "ignorePublicAcls" (.bool true)).truthy = true →
     (getD props "restrictPublicBuckets" (.bool true)).truthy = true →
      s3_bucket_public_access_block
        ⟨"aws:s3/bucketPublicAccessBlock:BucketPublicAccessBlock", props⟩ config =
        .ok [⟨"S3 bucket public access block violations: blockPublicAcls should be true",
              get_enforcement_level config⟩]) ∧
    ((getD props "blockPublicAcls" (.bool true)).truthy = true →
     (getD props "blockPublicPolicy" (.bool true)).truthy = false →
     (getD props "ignorePublicAcls" (.bool true)).truthy = true →
     (getD props "restrictPublicBuckets" (.bool true)).truthy = true →
      s3_bucket_public_access_block
        ⟨"aws:s3/bucketPublicAccessBlock:BucketPublicAccessBlock", props⟩ config =
        .ok [⟨"S3 bucket public access block violations: blockPublicPolicy should be true",
              get_enforcement_level config⟩]) ∧
    ((getD props "blockPublicAcls" (.bool true)).truthy = true →
     (getD props "blockPublicPolicy" (.bool true)).truthy = true →
     (getD props "ignorePublicAcls" (.bool true)).truthy = false →
     (getD props "restrictPublicBuckets" (.bool true)).truthy = true →
      s3_bucket_public_access_block
        ⟨"aws:s3/bucketPublicAccessBlock:BucketPublicAccessBlock", props⟩ config =
        .ok [⟨"S3 bucket public access block violations: ignorePublicAcls should be true",
              get_enforcement_level config⟩]) ∧
    ((getD props "blockPublicAcls" (.bool true)).truthy = true →
     (getD props "blockPublicPolicy" (.bool true)).truthy = true →
     (getD props "ignorePublicAcls" (.bool true)).truthy = true →
     (getD props "restrictPublicBuckets" (.bool true)).truthy = false →
      s3_bucket_public_access_block
        ⟨"aws:s3/bucketPublicAccessBlock:BucketPublicAccessBlock", props⟩ config =
        .ok [⟨"S3 bucket public access block violations: restrictPublicBuckets should be true",
              get_enforcement_level config⟩]) := by
  refine ⟨?_, ?_, ?_, ?_, ?_⟩ <;> intro h1 h2 h3 h4 <;>
    simp [s3_bucket_public_access_block, h1, h2, h3, h4, String.intercalate,
      String.intercalate.go]

/-- Witness for C7: concrete flag settings — all four true, then each
single flag false in turn (with an unrelated extra property present) —
draw zero and the four respective single violations. -/
theorem public_access_block_boundary_witness :
    (s3_bucket_public_access_block
      ⟨"aws:s3/bucketPublicAccessBlock:BucketPublicAccessBlock",
       [("extra", .str "x"), ("blockPublicAcls", .bool true), ("blockPublicPolicy", .bool true),
        ("ignorePublicAcls", .bool true), ("restrictPublicBuckets", .bool true)]⟩
      [] = .ok []) ∧
    (s3_bucket_public_access_block
      ⟨"aws:s3/bucketPublicAccessBlock:BucketPublicAccessBlock",
       [("extra", .str "x"), ("blockPublicAcls", .bool false), ("blockPublicPolicy", .bool true),
        ("ignorePublicAcls", .bool true), ("restrictPublicBuckets", .bool true)]⟩
      [] = .ok [⟨"S3 bucket public access block violations: blockPublicAcls should be true",
        get_enforcement_level []⟩]) ∧
    (s3_bucket_public_access_block
      ⟨"aws:s3/bucketPublicAccessBlock:BucketPublicAccessBlock",
       [("extra", .str "x"), ("blockPublicAcls", .bool true), ("blockPublicPolicy", .bool false),
        ("ignorePublicAcls", .bool true), ("restrictPublicBuckets", .bool true)]⟩
      [] = .ok [⟨"S3 bucket public access block violations: blockPublicPolicy should be true",
        get_enforcement_level []⟩]) ∧
    (s3_bucket_public_access_block
      ⟨"aws:s3/bucketPublicAccessBlock:BucketPublicAccessBlock",
       [("extra", .str "x"), ("blockPublicAcls", .bool true), ("blockPublicPolicy", .bool true),
        ("ignorePublicAcls", .bool false), ("restrictPublicBuckets", .bool true)]⟩
      [] = .ok [⟨"S3 bucket public access block violations: ignorePublicAcls should be true",
        get_enforcement_level []⟩]) ∧
    (s3_bucket_public_access_block
      ⟨"aws:s3/bucketPublicAccessBlock:BucketPublicAccessBlock",
       [("extra", .str "x"), ("blockPublicAcls", .bool true), ("blockPublicPolicy", .bool true),
        ("ignorePublicAcls", .bool true), ("restrictPublicBuckets", .bool false)]⟩
      [] = .ok [⟨"S3 bucket public access block violations: restrictPublicBuckets should be true",
        get_enforcement_level []⟩]) := by
  refine ⟨?_, ?_, ?_, ?_, ?_⟩
  · exact (public_access_block_boundary _ []).1 rfl rfl rfl rfl
  · exact (public_access_block_boundary _ []).2.1 rfl rfl rfl rfl
  · exact (public_access_block_boundary _ []).2.2.1 rfl rfl rfl rfl
  · exact (public_access_block_boundary _ []).2.2.2.1 rfl rfl rfl rfl
  · exact (public_access_block_boundary _ []).2.2.2.2 rfl rfl rfl rfl

/-- C6: with `max-s3-buckets` configured to `N`, a stack holding exactly
`N` resources of the S3 bucket type draws zero violations from the
bucket-count rule, and a stack holding `N + 1` draws exactly one. -/
theorem bucket_count_boundary
    (resources : List StackResource) (config : Config) (N : Nat)
    (hcfg : getD config "max-s3-buckets" (.num 5) = .num (N : Rat)) :
    ((resources.filter (fun r => r.resource_type == "aws:s3/bucketV2:BucketV2")).length = N →
      s3_bucket_count_limit ⟨resources⟩ config = .ok []) ∧
    ((resources.filter (fun r => r.resource_type == "aws:s3/bucketV2:BucketV2")).length = N + 1 →
      s3_bucket_count_limit ⟨resources⟩ config =
        .ok [⟨"Stack contains " ++ toString (N + 1) ++
              " S3 buckets, which exceeds the limit of " ++ Value.pyStr (.num (N : Rat)),
              get_enforcement_level config⟩]) := by
  constructor <;> intro hlen <;>
    simp [s3_bucket_count_limit, hcfg, hlen, pyIntGt, except_bind_ok, pure, Except.pure]

/-- Witness for C6: with the limit configured to 1, one bucket passes and
two buckets draw exactly one stack-level violation. -/
theorem bucket_count_boundary_witness :
    (s3_bucket_count_limit ⟨[⟨"aws:s3/bucketV2:BucketV2", []⟩]⟩
      [("max-s3-buckets", .num 1)] = .ok []) ∧
    (s3_bucket_count_limit
      ⟨[⟨"aws:s3/bucketV2:BucketV2", []⟩, ⟨"aws:s3/bucketV2:BucketV2", []⟩]⟩
      [("max-s3-buckets", .num 1)] =
      .ok [⟨"Stack contains " ++ toString (1 + 1) ++
            " S3 buckets, which exceeds the limit of " ++ Value.pyStr (.num ((1 : Nat) : Rat)),
            get_enforcement_level [("max-s3-buckets", .num 1)]⟩]) := by
  constructor
  · exact (bucket_count_boundary _ _ 1 (by norm_num [getD])).1 rfl
  · exact (bucket_count_boundary _ _ 1 (by norm_num [getD])).2 rfl

/-- C8: with `require-https` configured false the HTTPS-only rule reports
zero violations on a listener whatever its properties; with the default
value true, an HTTP listener on a numeric port other than 80 draws exactly
one violation. -/
theorem alb_https_config_override
    (props : List (String × Value)) (config : Config) (p : Int) :
    (getD config "require-https" (.bool true) = .bool false →
      alb_listener_https_only ⟨"aws:lb/listener:Listener", props⟩ config = .ok []) ∧
    (getD config "require-https" (.bool true) = .bool true →
      getD props "protocol" (.str "") = .str "HTTP" →
      getD props "port" (.num 80) = .num (p : Rat) →
      p ≠ 80 →
      alb_listener_https_only ⟨"aws:lb/listener:Listener", props⟩ config =
        .ok [⟨"Load balancer listener should use HTTPS instead of HTTP on port " ++
              Value.pyStr (.num (p : Rat)), get_enforcement_level config⟩]) := by
  constructor
  · intro hcfg
    simp [alb_listener_https_only, hcfg, Value.truthy]
  · intro hcfg hproto hport hp
    have hne : Value.neInt (.num (p : Rat)) 80 = true := by
      simp only [Value.neInt, decide_eq_true_eq]
      exact_mod_cast hp
    have hup : strUpper "HTTP" = "HTTP" := rfl
    simp [alb_listener_https_only, hcfg, hproto, hport, hne, hup, Value.truthy,
      Value.pyUpper, except_bind_ok, pure, Except.pure]

/-- Witness for C8: a listener with a malformed (numeric) protocol passes
when `require-https` is configured false, and an HTTP listener on port
8080 under the default configuration draws exactly one violation. -/
theorem alb_https_config_override_witness :
    (alb_listener_https_only
      ⟨"aws:lb/listener:Listener", [("protocol", .num 7)]⟩
      [("require-https", .bool false)] = .ok []) ∧
    (alb_listener_https_only
      ⟨"aws:lb/listener:Listener", [("protocol", .str "HTTP"), ("port", .num 8080)]⟩
      [] =
      .ok [⟨"Load balancer listener should use HTTPS instead of HTTP on port " ++
            Value.pyStr (.num ((8080 : Int) : Rat)), get_enforcement_level []⟩]) := by
  constructor
  · exact (alb_https_config_override [("protocol", .num 7)]
      [("require-https", .bool false)] 0).1 rfl
  · exact (alb_https_config_override
      [("protocol", .str "HTTP"), ("port", .num 8080)] [] 8080).2 rfl rfl
      rfl (by decide)

/-- Counterexample for C1 as stated: evaluating the timeout rule on a
lambda resource whose `timeout` property is the string `"high"` raises a
`TypeError` (Python cannot order a `str` against an `int`), rather than
skipping or reporting a malformed-input violation. -/
theorem predicate_raises_counterexample :
    lambda_reasonable_timeout
      ⟨"aws:lambda/function:Function", [("timeout", .str "high")]⟩ [] =
      .error (.typeError "unsupported operand types for comparison") := rfl

/-- C1 (amended): a wrong-typed property value on a type-matching resource
makes the predicate raise, with no malformed-input violation reported: any
string-valued `timeout` makes `lambda_reasonable_timeout` raise
`TypeError`, and any numeric `protocol` makes `alb_listener_https_only`
raise `AttributeError` whenever `require-https` is enabled. -/
theorem wrong_typed_property_raises
    (props : List (String × Value)) (config : Config) :
    (∀ s : String, getD props "timeout" (.num 3) = .str s →
      lambda_reasonable_timeout ⟨"aws:lambda/function:Function", props⟩ config =
        .error (.typeError "unsupported operand types for comparison")) ∧
    (∀ q : Rat, (getD config "require-https" (.bool true)).truthy = true →
      getD props "protocol" (.str "") = .num q →
      alb_listener_https_only ⟨"aws:lb/listener:Listener", props⟩ config =
        .error (.attributeError "object has no attribute upper")) := by
  constructor
  · intro s hs
    simp [lambda_reasonable_timeout, hs, Value.pyGtInt, except_bind_err]
  · intro q hcfg hp
    simp [alb_listener_https_only, hcfg, hp, Value.pyUpper, except_bind_err]

/-- Witness for the amended C1: the concrete string timeout raises
`TypeError` and the concrete numeric protocol raises `AttributeError`. -/
theorem wrong_typed_property_raises_witness :
    (lambda_reasonable_timeout
      ⟨"aws:lambda/function:Function", [("timeout", .str "900")]⟩ [] =
      .error (.typeError "unsupported operand types for comparison")) ∧
    (alb_listener_https_only
      ⟨"aws:lb/listener:Listener", [("protocol", .num 443)]⟩ [] =
      .error (.attributeError "object has no attribute upper")) := by
  constructor
  · exact (wrong_typed_property_raises [("timeout", .str "900")] []).1 "900" rfl
  · exact (wrong_typed_property_raises [("protocol", .num 443)] []).2 443 rfl rfl

/-- A string accepted by `json_loads` is nonempty. -/
theorem json_loads_nonempty {s : String} {v : Value} (h : json_loads s = some v) :
    s.isEmpty = false := by
  cases hb : s.isEmpty
  · rfl
  · have hs : s = "" := (String.isEmpty_iff s).mp hb
    rw [hs] at h
    simp [show json_loads "" = none from rfl] at h

/-- C4: on an IAM-policy resource whose policy document parses to a single
statement whose single action is the wildcard `*`, the wildcard rule
reports exactly one MANDATORY violation naming that action; with only
explicit action names it reports zero violations. -/
theorem iam_wildcard_boundary
    (doc : String) (props : List (String × Value)) (config : Config) :
    (getD props "policy" .null = .str doc →
      json_loads doc = some (.map [("Statement", .list [.map [("Action", .str "*")]])]) →
      iam_policy_no_wildcard_actions ⟨"aws:iam/policy:Policy", props⟩ config =
        .ok [⟨"IAM policy contains overly permissive action: *",
              EnforcementLevel.MANDATORY⟩]) ∧
    (∀ acts : List String,
      getD props "policy" .null = .str doc →
      json_loads doc = some (.map [("Statement",
        .list [.map [("Action", .list (acts.map Value.str))]])]) →
      (∀ a ∈ acts, a ≠ "*" ∧ containsSub a "*:*" = false) →
      iam_policy_no_wildcard_actions ⟨"aws:iam/policy:Policy", props⟩ config = .ok []) := by
  constructor
  · intro hdoc hjson
    have hne := json_loads_nonempty hjson
    simp only [iam_policy_no_wildcard_actions, hdoc, Value.truthy, Value.isStr, hne, hjson]
    simp [Value.dictGet, getD, policyStatementsViolations, statementActionViolations,
      actionViolations, except_bind_ok, pure, Except.pure]
  · intro acts hdoc hjson hacts
    have hne := json_loads_nonempty hjson
    simp only [iam_policy_no_wildcard_actions, hdoc, Value.truthy, Value.isStr, hne, hjson]
    simp only [Value.dictGet, getD, policyStatementsViolations, statementActionViolations,
      List.find?, except_bind_ok, pure, Except.pure]
    simp [except_bind_ok, pure, Except.pure]
    intro a ha
    simp [actionViolations, beq_iff_eq, (hacts a ha).1, (hacts a ha).2]

/-- Witness for C4: a concrete wildcard policy document draws one
MANDATORY violation; a concrete explicit-action document draws none. -/
theorem iam_wildcard_boundary_witness :
    (iam_policy_no_wildcard_actions
      ⟨"aws:iam/policy:Policy",
       [("policy", .str "\x7b\"Statement\": [\x7b\"Action\": \"*\"\x7d]\x7d")]⟩ [] =
      .ok [⟨"IAM policy contains overly permissive action: *",
            EnforcementLevel.MANDATORY⟩]) ∧
    (iam_policy_no_wildcard_actions
      ⟨"aws:iam/policy:Policy",
       [("policy",
         .str "\x7b\"Statement\": [\x7b\"Action\": [\"s3:GetObject\", \"s3:PutObject\"]\x7d]\x7d")]⟩
      [] = .ok []) := by
  constructor
  · exact (iam_wildcard_boundary "\x7b\"Statement\": [\x7b\"Action\": \"*\"\x7d]\x7d"
      [("policy", .str "\x7b\"Statement\": [\x7b\"Action\": \"*\"\x7d]\x7d")] []).1 rfl rfl
  · exact (iam_wildcard_boundary
      "\x7b\"Statement\": [\x7b\"Action\": [\"s3:GetObject\", \"s3:PutObject\"]\x7d]\x7d"
      [("policy",
        .str "\x7b\"Statement\": [\x7b\"Action\": [\"s3:GetObject\", \"s3:PutObject\"]\x7d]\x7d")]
      []).2 ["s3:GetObject", "s3:PutObject"] rfl rfl (by decide)

end PolicyPack
